import Mathlib

/-
Verification of the streaming candle pipeline and signal-detection engine
of deriv_full_bot.py (class FullBrainBot).

Shallow embedding conventions:
* Python floats (prices) are modelled as exact rationals (ℚ); all the
  properties proved here are order/sign facts preserved by this reading.
* `datetime.now()` values are modelled as a nonnegative wall-clock second
  count (ℕ); the clock is monotone within one process run.
* pandas DataFrames of candles are lists of `Candle` in append order;
  `df.tail(n)` is `tailn n`, `df["low"].min()` is `minQ`, etc.
* A Python exception escaping a detector call is the `DetectResult.raised`
  constructor (the `on_message` handler catches it); the exception text is
  not observable (it is only logged) and is not modelled.
* The dicts `self.data` / `self.sent_signals` are association lists with
  first-match lookup; an update prepends, which shadows older entries.
* The Telegram transport is exogenous: `send_alert` takes a `deliveryOk`
  flag saying whether `bot.send_message` would succeed; the source wraps
  that call in try/except, so failure only affects the returned
  "message actually delivered" flag, never the state update.
-/

set_option allowUnsafeReducibility true in
attribute [semireducible] Rat.add Rat.sub Rat.mul Rat.div Rat.inv Rat.neg

set_option maxRecDepth 10000

namespace DerivBot

/-! ## Configuration constants (module-level CONFIG block of the source) -/

def PAIRS : List String := ["frxXAUUSD", "R_75", "R_75S"]

def TIMEFRAMES : List ℕ := [1, 5, 10]

def CONFIDENCE_THRESHOLD : ℕ := 5

def RATE_LIMIT_MINUTES : ℕ := 25

/-! ## Data model -/

/-- One OHLC candle, as built in `on_message`:
`{"time": ..., "open": float(...), "high": float(...), "low": float(...),
"close": float(...)}`.  `open` is a Lean keyword, hence the field `open_`. -/
structure Candle where
  time : ℤ
  open_ : ℚ
  high : ℚ
  low : ℚ
  close : ℚ
deriving DecidableEq

inductive Direction where
  | LONG
  | SHORT
deriving DecidableEq

/-- The dict returned by `combine_price_action_factors`:
`{"type": ..., "entry": ..., "sl": ..., "tp": ...}`.  The key `"type"` is a
Lean keyword, hence the field `dir`. -/
structure Signal where
  dir : Direction
  entry : ℚ
  sl : ℚ
  tp : ℚ
deriving DecidableEq

/-! ## List helpers mirroring the pandas operations used by the source -/

/-- `df.tail(n)`: the last `n` elements (all of them when the list is
shorter). -/
def tailn (n : ℕ) (l : List α) : List α := l.drop (l.length - n)

/-- `series.min()` over a nonempty column.  The `[]` case is unreachable in
the pipeline (every window the detector sees has at least one row). -/
def minQ : List ℚ → ℚ
  | [] => 0
  | h :: t => t.foldl min h

/-- `series.max()` over a nonempty column; `[]` unreachable as for `minQ`. -/
def maxQ : List ℚ → ℚ
  | [] => 0
  | h :: t => t.foldl max h

/-- `values[i]` on a numpy array read out of a column. -/
def nthQ (l : List ℚ) (i : ℕ) : ℚ := l.getD i 0

/-- `df["close"].iloc[-1]`: the latest close. -/
def lastQ (l : List ℚ) : ℚ := l.getLastD 0

def lows (df : List Candle) : List ℚ := df.map Candle.low

def highs (df : List Candle) : List ℚ := df.map Candle.high

def closes (df : List Candle) : List ℚ := df.map Candle.close

/-! ## Price-action tools (methods of FullBrainBot) -/

/-- `calculate_support_resistance(df, window=20)`:
`(df["low"].tail(20).min(), df["high"].tail(20).max())`. -/
def calculate_support_resistance (df : List Candle) : ℚ × ℚ :=
  (minQ (tailn 20 (lows df)), maxQ (tailn 20 (highs df)))

def supportOf (df : List Candle) : ℚ := (calculate_support_resistance df).1

def resistanceOf (df : List Candle) : ℚ := (calculate_support_resistance df).2

/-- `identify_zones(df)`: `(df["low"].tail(10).min(), df["high"].tail(10).max())`.
Computed by `combine_price_action_factors` but never used in scoring. -/
def identify_zones (df : List Candle) : ℚ × ℚ :=
  (minQ (tailn 10 (lows df)), maxQ (tailn 10 (highs df)))

/-- Sum of `i * ys[i]` over the list, i.e. the dot product with the index
vector `np.arange(len ys)`. -/
def idxDot (ys : List ℚ) : ℚ := (ys.enum.map (fun p => (p.1 : ℚ) * p.2)).sum

/-- Slope of the ordinary least-squares regression line of `ys` against
`x = np.arange(10)` (as `scipy.stats.linregress` computes it): with
n = 10, Σx = 45, Σx² = 285 the slope is
(n·Σxy − Σx·Σy) / (n·Σx² − (Σx)²) = (10·Σ i·yᵢ − 45·Σ yᵢ) / 825.
Only meaningful when `ys` has exactly 10 entries. -/
def olsSlope10 (ys : List ℚ) : ℚ := (10 * idxDot ys - 45 * ys.sum) / 825

/-- `detect_trendline(df)`: slopes of the last 10 highs and last 10 lows
against `np.arange(10)`.  When the frame has fewer than 10 rows,
`tail(10)` yields fewer values than `x` and `linregress` raises a
ValueError: modelled by `none`. -/
def detect_trendline (df : List Candle) : Option (ℚ × ℚ) :=
  if df.length < 10 then none
  else some (olsSlope10 (tailn 10 (highs df)), olsSlope10 (tailn 10 (lows df)))

/-- `detect_breakout(df)`: `None` below 20 rows; otherwise compare the
latest close against the max high / min low of the last 10 rows. -/
def detect_breakout (df : List Candle) : Option String :=
  if df.length < 20 then none
  else if lastQ (closes df) > maxQ (tailn 10 (highs df)) then some "Breakout Up"
  else if lastQ (closes df) < minQ (tailn 10 (lows df)) then some "Breakout Down"
  else none

/-- `detect_head_shoulders(df)`: `None` below 7 rows; otherwise look at the
last 7 closes `c` and test the chained comparison
`c[0] < c[2] > c[4] and c[2] > c[0] and c[2] > c[4]`, which Python reads as
the four-way conjunction reproduced literally here. -/
def detect_head_shoulders (df : List Candle) : Option String :=
  if df.length < 7 then none
  else if nthQ (tailn 7 (closes df)) 0 < nthQ (tailn 7 (closes df)) 2 ∧
          nthQ (tailn 7 (closes df)) 2 > nthQ (tailn 7 (closes df)) 4 ∧
          nthQ (tailn 7 (closes df)) 2 > nthQ (tailn 7 (closes df)) 0 ∧
          nthQ (tailn 7 (closes df)) 2 > nthQ (tailn 7 (closes df)) 4 then
    some "H&S pattern"
  else none

/-- The additive confidence score of `combine_price_action_factors`, given
the two slopes already extracted by `detect_trendline`. -/
def score (df : List Candle) (slope_high slope_low : ℚ) : ℕ :=
  (if lastQ (closes df) > (calculate_support_resistance df).1 then 1 else 0) +
  (if lastQ (closes df) < (calculate_support_resistance df).2 then 1 else 0) +
  (if (detect_breakout df).isSome then 2 else 0) +
  (if (detect_head_shoulders df).isSome then 2 else 0) +
  (if slope_high > 0 then 1 else 0) +
  (if slope_low < 0 then 1 else 0)

/-- The confidence score as a function of the window alone, using the same
tail-10 slopes `detect_trendline` produces on a window of length ≥ 10. -/
def confidence_val (df : List Candle) : ℕ :=
  score df (olsSlope10 (tailn 10 (highs df))) (olsSlope10 (tailn 10 (lows df)))

/-- Outcome of one call of `combine_price_action_factors`: either a Python
exception escapes the call (`raised` — in the pipeline it is caught by the
try/except of `on_message`), or the call returns a signal dict or `None`. -/
inductive DetectResult where
  | raised
  | result (sig : Option Signal)
deriving DecidableEq

def isResult : DetectResult → Bool
  | .raised => false
  | .result _ => true

/-- `combine_price_action_factors(df)`.  The source computes
support/resistance, zones, trendline slopes, breakout and H&S pattern, adds
up the confidence score, and — when the score reaches the threshold —
returns a LONG dict if the latest close is above resistance, a SHORT dict
if it is below support, and `None` otherwise.  `detect_trendline` raising
(window shorter than 10 rows; on an empty frame the column accesses raise
even earlier) aborts the whole call before it can return: `.raised`. -/
def combine_price_action_factors (df : List Candle) : DetectResult :=
  match detect_trendline df with
  | none => .raised
  | some slopes =>
    .result
      (if CONFIDENCE_THRESHOLD ≤ score df slopes.1 slopes.2 then
        if lastQ (closes df) > (calculate_support_resistance df).2 then
          some ⟨.LONG, lastQ (closes df),
                (calculate_support_resistance df).1,
                (calculate_support_resistance df).2⟩
        else if lastQ (closes df) < (calculate_support_resistance df).1 then
          some ⟨.SHORT, lastQ (closes df),
                (calculate_support_resistance df).2,
                (calculate_support_resistance df).1⟩
        else none
      else none)

/-! ## Alert gate (`send_alert`) -/

/-- The f-string dedup key `f"{pair}_{tf}_{type}_{entry:.2f}"`, kept
structured.  `entry2` is the entry price rounded to 2 decimal places and
scaled by 100 (`{:.2f}` formatting; Python rounds ties to even — `round`
here rounds ties up, and no property proved below exercises a tie). -/
structure DedupKey where
  pair : String
  tf : ℕ
  dir : Direction
  entry2 : ℤ
deriving DecidableEq

def make_key (pair : String) (tf : ℕ) (sig : Signal) : DedupKey :=
  ⟨pair, tf, sig.dir, round (100 * sig.entry)⟩

/-- `self.sent_signals`: dict from dedup key to last-sent wall-clock time. -/
abbrev SentMap := List (DedupKey × ℕ)

def sentGet (m : SentMap) (k : DedupKey) : Option ℕ :=
  (m.find? (fun p => decide (p.1 = k))).map Prod.snd

/-- `send_alert(pair, tf, signal)`.  The suppression test is
`(datetime.now() - self.sent_signals[key]).seconds / 60 < RATE_LIMIT_MINUTES`.
`timedelta.seconds` is the seconds field of the normalized timedelta, i.e.
the elapsed time modulo 86400 (one day) for a nonnegative delta — NOT the
total elapsed seconds.  With an integer second count s, `s / 60 < 25` is
`s < 1500`.  When not suppressed, the dict entry is set to `now` BEFORE the
try/except around `bot.send_message`, so a delivery failure (deliveryOk =
false) still records the emission.  Returns the updated map and whether the
Telegram message was actually delivered. -/
def send_alert (sent : SentMap) (now : ℕ) (pair : String) (tf : ℕ)
    (sig : Signal) (deliveryOk : Bool) : SentMap × Bool :=
  match sentGet sent (make_key pair tf sig) with
  | some last =>
    if (now - last) % 86400 < 1500 then (sent, false)
    else ((make_key pair tf sig, now) :: sent, deliveryOk)
  | none => ((make_key pair tf sig, now) :: sent, deliveryOk)

/-! ## Rolling series store and message handler -/

/-- `self.data[pair][tf] = pd.concat([self.data[pair][tf], new_candle]).tail(100)`:
append one candle, keep the last 100 rows. -/
def append_trim (s : List Candle) (c : Candle) : List Candle :=
  tailn 100 (s ++ [c])

/-- `self.data`: dict keyed by (pair, timeframe).  Missing keys read as the
empty series, matching the empty DataFrames the constructor installs for
every configured (pair, timeframe). -/
abbrev DataMap := List ((String × ℕ) × List Candle)

def dataGet (m : DataMap) (pair : String) (tf : ℕ) : List Candle :=
  ((m.find? (fun p => decide (p.1 = (pair, tf)))).map Prod.snd).getD []

def dataSet (m : DataMap) (pair : String) (tf : ℕ) (s : List Candle) : DataMap :=
  ((pair, tf), s) :: m

/-- An inbound feed event as `on_message` sees it.  A field is `none` when
reading or converting it raises (missing key, non-numeric `float(...)`,
non-numeric `int(...)`); the exception is caught by the handler's
try/except. -/
structure RawOhlc where
  symbol : String
  granularity : Option ℕ
  epoch : Option ℤ
  open_ : Option ℚ
  high : Option ℚ
  low : Option ℚ
  close : Option ℚ
deriving DecidableEq

inductive FeedMessage where
  /-- `json.loads` raises: caught, event dropped. -/
  | malformed
  /-- parsed JSON without an `"ohlc"` envelope: early `return`. -/
  | other
  | ohlcMsg (r : RawOhlc)
deriving DecidableEq

/-- `on_message(ws, message)`.  Returns the updated series store, the
updated dedup map, and — when `combine_price_action_factors` was invoked —
its outcome (`none` in the third component means the detector was never
called).  The whole body sits in a try/except, so every exception path
falls back to the state already written: field-conversion failures happen
before the store is written (state unchanged), while a detector exception
happens after the append (append kept, no alert).  The handler always
returns normally — no error is fatal to the ingestion loop. -/
def on_message (data : DataMap) (sent : SentMap) (msg : FeedMessage)
    (now : ℕ) (deliveryOk : Bool) :
    DataMap × SentMap × Option DetectResult :=
  match msg with
  | .malformed => (data, sent, none)
  | .other => (data, sent, none)
  | .ohlcMsg r =>
    match r.granularity with
    | none => (data, sent, none)
    | some g =>
      if (g / 60) ∈ TIMEFRAMES ∧ r.symbol ∈ PAIRS then
        match r.epoch, r.open_, r.high, r.low, r.close with
        | some t, some o, some h, some l, some c =>
          match combine_price_action_factors
              (append_trim (dataGet data r.symbol (g / 60)) ⟨t, o, h, l, c⟩) with
          | .raised =>
            (dataSet data r.symbol (g / 60)
              (append_trim (dataGet data r.symbol (g / 60)) ⟨t, o, h, l, c⟩),
             sent, some .raised)
          | .result none =>
            (dataSet data r.symbol (g / 60)
              (append_trim (dataGet data r.symbol (g / 60)) ⟨t, o, h, l, c⟩),
             sent, some (.result none))
          | .result (some sig) =>
            (dataSet data r.symbol (g / 60)
              (append_trim (dataGet data r.symbol (g / 60)) ⟨t, o, h, l, c⟩),
             (send_alert sent now r.symbol (g / 60) sig deliveryOk).1,
             some (.result (some sig)))
        | _, _, _, _, _ => (data, sent, none)
      else (data, sent, none)

/-! ## Connection lifecycle handlers -/

structure BotState where
  data : DataMap
  sent_signals : SentMap
  connected_sent : Bool
  active : Bool
deriving DecidableEq

/-- `on_error(ws, error)`: `logging.warning` only — no state touched. -/
def on_error (st : BotState) : BotState := st

/-- `on_close(ws, status, msg)`: `logging.info` and `time.sleep(5)` — no
state touched. -/
def on_close (st : BotState) : BotState := st

/-- `on_open(ws)`: authorize, the one-time "connected" Telegram message
(guarded by `connected_sent`, which it sets), and the subscription requests
for every configured pair/timeframe.  `self.data` and `self.sent_signals`
are never touched. -/
def on_open (st : BotState) : BotState := { st with connected_sent := true }

inductive WsEvent where
  | message (m : FeedMessage) (now : ℕ) (deliveryOk : Bool)
  | wsError
  | wsClose
  | wsReopen
deriving DecidableEq

def wsStep (st : BotState) : WsEvent → BotState
  | .message m now ok =>
    { st with
      data := (on_message st.data st.sent_signals m now ok).1
      sent_signals := (on_message st.data st.sent_signals m now ok).2.1 }
  | .wsError => on_error st
  | .wsClose => on_close st
  | .wsReopen => on_open st

/-- Transport-lifecycle events, as opposed to data messages. -/
def isTransportEvent : WsEvent → Bool
  | .message _ _ _ => false
  | _ => true

/-- `send_alert`'s gate lets the key through at `now`: no record, or the
recorded delta check fails. -/
def gatePasses (sent : SentMap) (now : ℕ) (k : DedupKey) : Prop :=
  ∀ last, sentGet sent k = some last → 1500 ≤ (now - last) % 86400

/-! ## Concrete inputs used by witnesses and counterexamples -/

/-- A window of `n` identical flat candles. -/
def constWindow (n : ℕ) : List Candle :=
  (List.range n).map (fun i => ⟨i, 1, 1, 1, 1⟩)

/-- Twenty candles whose feed prices are inverted (every low above every
high — nothing in the pipeline validates `low ≤ high`): highs all 0, lows
30 then falling 20..11 over the last ten (negative low slope), closes
arranged so that the last seven are 1,0,3,0,2,0,5 (head-and-shoulders fires
and the last close 5 breaks out above the 10-candle high 0). -/
def wBad : List Candle :=
  (List.range 20).map (fun i =>
    { time := i
      open_ := 0
      high := 0
      low := if i < 10 then 30 else (30 - (i : ℚ))
      close := if i = 13 then 1 else if i = 15 then 3 else
               if i = 17 then 2 else if i = 19 then 5 else 0 })

/-- Twenty well-formed candles (low 100 below every high): highs rising
111..130, closes arranged so that H&S fires and the last close 132 breaks
out above the resistance 130, giving confidence 6 and a LONG signal. -/
def wGood : List Candle :=
  (List.range 20).map (fun i =>
    { time := i
      open_ := 100
      high := 111 + (i : ℚ)
      low := 100
      close := if i = 15 then 110 else if i = 17 then 105 else
               if i = 19 then 132 else 100 })

def sig132 : Signal := ⟨.LONG, 132, 100, 130⟩

def key132 : DedupKey := make_key "frxXAUUSD" 5 sig132

/-- An ohlc event with granularity 90 s (not 60 times any configured
timeframe) for the subscribed symbol R_75, all fields numeric. -/
def r90 : RawOhlc := ⟨"R_75", some 90, some 1000, some 1, some 2, some 1, some 3⟩

/-- An ohlc event for a subscribed (symbol, timeframe) whose `close` field
is not numeric (`float(...)` raises). -/
def rbad : RawOhlc := ⟨"R_75", some 60, some 0, some 1, some 2, some 1, none⟩

def cand0 : Candle := ⟨0, 1, 1, 1, 1⟩

def cand1 : Candle := ⟨1, 2, 2, 2, 2⟩

/-- An ohlc event whose symbol is outside the configured PAIRS. -/
def rout : RawOhlc := ⟨"NOPE", some 90, some 0, some 1, some 2, some 1, some 3⟩

/-- Seven candles whose closes are 1,0,3,0,2,0,5: a head-and-shoulders
shape (first close below the middle peak, middle peak above the later
trough). -/
def w7 : List Candle :=
  [⟨0, 0, 0, 0, 1⟩, ⟨1, 0, 0, 0, 0⟩, ⟨2, 0, 0, 0, 3⟩, ⟨3, 0, 0, 0, 0⟩,
   ⟨4, 0, 0, 0, 2⟩, ⟨5, 0, 0, 0, 0⟩, ⟨6, 0, 0, 0, 5⟩]

/-- A bot state holding accumulated series data and a dedup record. -/
def st0 : BotState := ⟨[(("R_75", 1), [cand0])], [(key132, 0)], true, true⟩

/-! ## Helper lemmas -/

lemma tailn_length (n : ℕ) (l : List α) : (tailn n l).length = min n l.length := by
  simp [tailn]
  omega

lemma tailn_map (f : α → β) (n : ℕ) (l : List α) :
    tailn n (l.map f) = (tailn n l).map f := by
  simp [tailn, List.map_drop]

lemma foldl_min_le_init (l : List ℚ) : ∀ a : ℚ, l.foldl min a ≤ a := by
  induction l with
  | nil => intro a; simp
  | cons x t ih => intro a; exact le_trans (ih (min a x)) (min_le_left a x)

lemma foldl_min_le_mem (l : List ℚ) : ∀ a x, x ∈ l → l.foldl min a ≤ x := by
  induction l with
  | nil => intro a x hx; cases hx
  | cons y t ih =>
    intro a x hx
    rcases List.mem_cons.mp hx with h1 | h1
    · subst h1; exact le_trans (foldl_min_le_init t _) (min_le_right a x)
    · exact ih _ x h1

lemma minQ_le (l : List ℚ) (x : ℚ) (hx : x ∈ l) : minQ l ≤ x := by
  cases l with
  | nil => cases hx
  | cons h t =>
    rcases List.mem_cons.mp hx with h1 | h1
    · subst h1; exact foldl_min_le_init t x
    · exact foldl_min_le_mem t h x h1

lemma init_le_foldl_max (l : List ℚ) : ∀ a : ℚ, a ≤ l.foldl max a := by
  induction l with
  | nil => intro a; simp
  | cons x t ih => intro a; exact le_trans (le_max_left a x) (ih (max a x))

lemma mem_le_foldl_max (l : List ℚ) : ∀ a x, x ∈ l → x ≤ l.foldl max a := by
  induction l with
  | nil => intro a x hx; cases hx
  | cons y t ih =>
    intro a x hx
    rcases List.mem_cons.mp hx with h1 | h1
    · subst h1; exact le_trans (le_max_right a x) (init_le_foldl_max t _)
    · exact ih _ x h1

lemma le_maxQ (l : List ℚ) (x : ℚ) (hx : x ∈ l) : x ≤ maxQ l := by
  cases l with
  | nil => cases hx
  | cons h t =>
    rcases List.mem_cons.mp hx with h1 | h1
    · subst h1; exact init_le_foldl_max t x
    · exact mem_le_foldl_max t h x h1

/-- On any window with candle-wise `low ≤ high` over the last 20 candles,
the 20-candle min low is at most the 20-candle max high. -/
lemma support_le_resistance (df : List Candle) (hne : df ≠ [])
    (hlh : ∀ c ∈ tailn 20 df, c.low ≤ c.high) :
    supportOf df ≤ resistanceOf df := by
  have hpos : 0 < (tailn 20 df).length := by
    rw [tailn_length]
    have := List.length_pos.mpr hne
    omega
  obtain ⟨c, hc⟩ := List.exists_mem_of_ne_nil _ (List.length_pos.mp hpos)
  have h1 : supportOf df ≤ c.low := by
    unfold supportOf calculate_support_resistance lows
    rw [tailn_map]
    exact minQ_le _ _ (List.mem_map_of_mem _ hc)
  have h2 : c.high ≤ resistanceOf df := by
    unfold resistanceOf calculate_support_resistance highs
    rw [tailn_map]
    exact le_maxQ _ _ (List.mem_map_of_mem _ hc)
  exact le_trans h1 (le_trans (hlh c hc) h2)

lemma score_le_8 (df : List Candle) (sh sl : ℚ) : score df sh sl ≤ 8 := by
  unfold score
  split_ifs <;> norm_num

/-- On a window of at least 10 candles, `combine_price_action_factors`
returns, and its value is the nested-if emission rule with the tail-10
slopes filled in. -/
lemma combine_eq_of_len (df : List Candle) (hlen : ¬ df.length < 10) :
    combine_price_action_factors df =
      .result
        (if CONFIDENCE_THRESHOLD ≤ confidence_val df then
          if lastQ (closes df) > resistanceOf df then
            some ⟨.LONG, lastQ (closes df), supportOf df, resistanceOf df⟩
          else if lastQ (closes df) < supportOf df then
            some ⟨.SHORT, lastQ (closes df), resistanceOf df, supportOf df⟩
          else none
        else none) := by
  unfold combine_price_action_factors detect_trendline confidence_val supportOf resistanceOf
  simp [hlen]

/-- First-match lookup after a dict write finds the written value. -/
lemma sentGet_cons_self (m : SentMap) (k : DedupKey) (v : ℕ) :
    sentGet ((k, v) :: m) k = some v := by
  unfold sentGet
  rw [List.find?_cons_of_pos]
  · rfl
  · simp

/-- A recompute whose raw elapsed time is under 25 minutes is suppressed
with no state change. -/
lemma send_alert_suppressed (m : SentMap) (pair : String) (tf : ℕ)
    (sig : Signal) (last now : ℕ) (d : Bool)
    (h : sentGet m (make_key pair tf sig) = some last)
    (hlt : (now - last) % 86400 < 1500) :
    send_alert m now pair tf sig d = (m, false) := by
  simp [send_alert, h, hlt]

lemma append_trim_length_le (s : List Candle) (c : Candle) :
    (append_trim s c).length ≤ 100 := by
  simp [append_trim, tailn]
  omega

lemma foldl_append_trim_le (cs : List Candle) :
    ∀ s : List Candle, s.length ≤ 100 → (cs.foldl append_trim s).length ≤ 100 := by
  induction cs with
  | nil => intro s h; simpa using h
  | cons c cs ih => intro s h; exact ih _ (append_trim_length_le s c)

/-! ## Claims -/

/-- C1: the detector emits a LONG dict (entry = latest close, stop =
support = 20-candle min low, target = resistance = 20-candle max high)
exactly when confidence ≥ 5 and the latest close is above resistance; a
SHORT dict (entry = latest close, stop = resistance, target = support)
exactly when confidence ≥ 5 and the latest close is below support; in
every other case a completed call returns no signal. -/
theorem C1_signal_emission_rule (df : List Candle) (r : Option Signal)
    (h : combine_price_action_factors df = .result r) :
    r = if CONFIDENCE_THRESHOLD ≤ confidence_val df ∧
           lastQ (closes df) > resistanceOf df then
          some ⟨.LONG, lastQ (closes df), supportOf df, resistanceOf df⟩
        else if CONFIDENCE_THRESHOLD ≤ confidence_val df ∧
           lastQ (closes df) < supportOf df then
          some ⟨.SHORT, lastQ (closes df), resistanceOf df, supportOf df⟩
        else none := by
  by_cases hlen : df.length < 10
  · exfalso
    unfold combine_price_action_factors detect_trendline at h
    simp [hlen] at h
  · rw [combine_eq_of_len df hlen] at h
    injection h with h2
    subst h2
    split_ifs <;> first | rfl | tauto

/-- Witness for C1 at a flat 10-candle window (no emission). -/
theorem C1_signal_emission_rule_witness :
    (none : Option Signal) =
      if CONFIDENCE_THRESHOLD ≤ confidence_val (constWindow 10) ∧
         lastQ (closes (constWindow 10)) > resistanceOf (constWindow 10) then
        some ⟨.LONG, lastQ (closes (constWindow 10)),
              supportOf (constWindow 10), resistanceOf (constWindow 10)⟩
      else if CONFIDENCE_THRESHOLD ≤ confidence_val (constWindow 10) ∧
         lastQ (closes (constWindow 10)) < supportOf (constWindow 10) then
        some ⟨.SHORT, lastQ (closes (constWindow 10)),
              resistanceOf (constWindow 10), supportOf (constWindow 10)⟩
      else none :=
  C1_signal_emission_rule (constWindow 10) none (by decide)

/-- C2: the suppression test divides `timedelta.seconds` — the elapsed
time modulo one day — by 60, so a second identical signal 87000 s
(1 day + 10 min, well over the 25-minute window) after the first is
suppressed with no state change, although the claim requires every gap of
at least 25 minutes to be allowed and recorded. -/
theorem C2_rate_limit_day_wrap_bug :
    1500 ≤ 87000 ∧
    send_alert [(key132, 0)] 87000 "frxXAUUSD" 5 sig132 true =
      ([(key132, 0)], false) :=
  ⟨by norm_num, by decide⟩

/-- Counterexample to C3: on a one-candle window the call does not run to
completion — `detect_trendline` hands 1 value to `linregress` against 10
x-values and the resulting exception aborts `combine_price_action_factors`. -/
theorem C3_tiny_window_raises :
    combine_price_action_factors [cand0] = .raised := by decide

/-- C3 (amended): on every window with at least 10 and fewer than 20
candles the detector runs to completion, the breakout factor contributes 0
(its 20-candle minimum is not met), and the confidence score is computed
and bounded by 8 (it is a sum of nonnegative terms, so 0 ≤ score holds by
type). -/
theorem C3_medium_window_runs (df : List Candle) (h10 : 10 ≤ df.length)
    (h20 : df.length < 20) :
    isResult (combine_price_action_factors df) = true ∧
    detect_breakout df = none ∧
    confidence_val df ≤ 8 := by
  refine ⟨?_, ?_, score_le_8 df _ _⟩
  · rw [combine_eq_of_len df (by omega)]
    rfl
  · unfold detect_breakout
    rw [if_pos h20]

/-- Witness for the amended C3 at a flat 12-candle window. -/
theorem C3_medium_window_runs_witness :
    isResult (combine_price_action_factors (constWindow 12)) = true ∧
    detect_breakout (constWindow 12) = none ∧
    confidence_val (constWindow 12) ≤ 8 :=
  C3_medium_window_runs (constWindow 12) (by decide) (by decide)

/-- C4: the rolling store `pd.concat([...]).tail(100)` keeps every series
at length ≤ 100 across any sequence of appends from empty; an append below
capacity is a plain append, and an append at capacity drops exactly the
oldest candle, keeping the rest in append order. -/
theorem C4_rolling_series_bounded_fifo :
    (∀ cs : List Candle, (cs.foldl append_trim []).length ≤ 100) ∧
    (∀ (s : List Candle) (c : Candle), s.length < 100 →
      append_trim s c = s ++ [c]) ∧
    (∀ (s : List Candle) (c : Candle), s.length = 100 →
      append_trim s c = s.tail ++ [c]) := by
  refine ⟨?_, ?_, ?_⟩
  · intro cs
    exact foldl_append_trim_le cs [] (by simp)
  · intro s c h
    unfold append_trim tailn
    have h0 : (s ++ [c]).length - 100 = 0 := by
      simp
      omega
    rw [h0, List.drop_zero]
  · intro s c h
    unfold append_trim tailn
    have h1 : (s ++ [c]).length - 100 = 1 := by simp [h]
    rw [h1, List.drop_append_of_le_length (by omega), List.drop_one]

/-- Witness for C4: an append at capacity 100 evicts the oldest candle,
and an append below capacity is a plain append. -/
theorem C4_rolling_series_bounded_fifo_witness :
    append_trim (List.replicate 100 cand0) cand1 =
      (List.replicate 100 cand0).tail ++ [cand1] ∧
    append_trim [cand0] cand1 = [cand0] ++ [cand1] :=
  ⟨C4_rolling_series_bounded_fifo.2.2 _ _ (by decide),
   C4_rolling_series_bounded_fifo.2.1 _ _ (by decide)⟩

/-- C5: an ohlc event with a non-numeric (or missing) required field is
dropped inside the handler's try/except before the store is touched: every
series is unchanged, the detector is never invoked, no alert state changes,
and `on_message` returns normally. -/
theorem C5_malformed_event_dropped (data : DataMap) (sent : SentMap)
    (r : RawOhlc) (now : ℕ) (d : Bool)
    (h : r.granularity = none ∨ r.epoch = none ∨ r.open_ = none ∨
         r.high = none ∨ r.low = none ∨ r.close = none) :
    on_message data sent (.ohlcMsg r) now d = (data, sent, none) := by
  obtain ⟨sym, gr, ep, op, hi, lo, cl⟩ := r
  rcases gr with _ | g
  · simp [on_message]
  · cases ep <;> cases op <;> cases hi <;> cases lo <;> cases cl <;>
      simp_all [on_message]

/-- Witness for C5: an event for a subscribed pair whose close is not
numeric leaves everything unchanged. -/
theorem C5_malformed_event_dropped_witness :
    on_message [] [] (.ohlcMsg rbad) 0 true = ([], [], none) :=
  C5_malformed_event_dropped [] [] rbad 0 true (by decide)

/-- Counterexample to C6: the handler computes `tf = granularity // 60` and
only then checks membership, so a granularity of 90 s — which is not 60
times any configured timeframe — floors to tf = 1 and IS accepted: the
candle is appended to the 1-minute series, and detection runs on it. -/
theorem C6_granularity90_accepted :
    (on_message [] [] (.ohlcMsg r90) 0 true).1 =
      [(("R_75", 1), [⟨1000, 1, 2, 1, 3⟩])] ∧
    (on_message [] [] (.ohlcMsg r90) 0 true).2.2.isSome = true := by decide

/-- C6 (amended): an ohlc event is rejected — no series touched, no
detection — exactly on the check the source makes: when
`granularity // 60` is not a configured timeframe or the symbol is not a
configured pair.  A granularity of 90 s floors to timeframe 1 and passes. -/
theorem C6_subscription_filter (data : DataMap) (sent : SentMap)
    (r : RawOhlc) (now : ℕ) (d : Bool) (g : ℕ)
    (hg : r.granularity = some g)
    (h : g / 60 ∉ TIMEFRAMES ∨ r.symbol ∉ PAIRS) :
    on_message data sent (.ohlcMsg r) now d = (data, sent, none) := by
  have hcond : ¬ ((g / 60) ∈ TIMEFRAMES ∧ r.symbol ∈ PAIRS) := by tauto
  simp [on_message, hg, hcond]

/-- Witness for the amended C6: an unsubscribed symbol is rejected. -/
theorem C6_subscription_filter_witness :
    on_message [] [] (.ohlcMsg rout) 0 true = ([], [], none) :=
  C6_subscription_filter [] [] rout 0 true 90 (by decide) (by decide)

/-- C7: on a window of at least 7 candles, the head-and-shoulders string is
produced exactly when the last seven closes satisfy the literal four-way
conjunction c0 < c2 ∧ c2 > c4 ∧ c2 > c0 ∧ c2 > c4, and equally exactly
when they satisfy just c0 < c2 ∧ c2 > c4 — the last two conjuncts are
redundant. -/
theorem C7_head_shoulders_iff (df : List Candle) (h : 7 ≤ df.length) :
    (detect_head_shoulders df = some "H&S pattern" ↔
      (nthQ (tailn 7 (closes df)) 0 < nthQ (tailn 7 (closes df)) 2 ∧
       nthQ (tailn 7 (closes df)) 2 > nthQ (tailn 7 (closes df)) 4 ∧
       nthQ (tailn 7 (closes df)) 2 > nthQ (tailn 7 (closes df)) 0 ∧
       nthQ (tailn 7 (closes df)) 2 > nthQ (tailn 7 (closes df)) 4)) ∧
    (detect_head_shoulders df = some "H&S pattern" ↔
      (nthQ (tailn 7 (closes df)) 0 < nthQ (tailn 7 (closes df)) 2 ∧
       nthQ (tailn 7 (closes df)) 2 > nthQ (tailn 7 (closes df)) 4)) := by
  have hn : ¬ df.length < 7 := by omega
  unfold detect_head_shoulders
  rw [if_neg hn]
  constructor
  · split_ifs with hc
    · simp [hc]
    · exact iff_of_false (by simp) hc
  · split_ifs with hc
    · simp [hc.1, hc.2.1]
    · exact iff_of_false (by simp)
        (fun h2 => hc ⟨h2.1, h2.2, gt_iff_lt.mpr h2.1, h2.2⟩)

/-- Witness for C7 at a seven-candle window that shows the pattern. -/
theorem C7_head_shoulders_iff_witness :
    (detect_head_shoulders w7 = some "H&S pattern" ↔
      (nthQ (tailn 7 (closes w7)) 0 < nthQ (tailn 7 (closes w7)) 2 ∧
       nthQ (tailn 7 (closes w7)) 2 > nthQ (tailn 7 (closes w7)) 4 ∧
       nthQ (tailn 7 (closes w7)) 2 > nthQ (tailn 7 (closes w7)) 0 ∧
       nthQ (tailn 7 (closes w7)) 2 > nthQ (tailn 7 (closes w7)) 4)) ∧
    (detect_head_shoulders w7 = some "H&S pattern" ↔
      (nthQ (tailn 7 (closes w7)) 0 < nthQ (tailn 7 (closes w7)) 2 ∧
       nthQ (tailn 7 (closes w7)) 2 > nthQ (tailn 7 (closes w7)) 4)) :=
  C7_head_shoulders_iff w7 (by decide)

/-- C8: across any run of transport-lifecycle events — errors, closes,
reopens with resubscription — the accumulated per-(symbol, timeframe)
series data and the dedup map are unchanged: the disconnect/reconnect
handlers never reset or modify stored series. -/
theorem C8_reconnect_preserves_series (st : BotState) (evs : List WsEvent)
    (h : ∀ e ∈ evs, isTransportEvent e = true) :
    (evs.foldl wsStep st).data = st.data ∧
    (evs.foldl wsStep st).sent_signals = st.sent_signals := by
  induction evs generalizing st with
  | nil => exact ⟨rfl, rfl⟩
  | cons e evs ih =>
    have he := h e (List.mem_cons_self e evs)
    have ht : ∀ x ∈ evs, isTransportEvent x = true :=
      fun x hx => h x (List.mem_cons_of_mem e hx)
    cases e with
    | message m now ok => simp [isTransportEvent] at he
    | wsError => simpa [wsStep, on_error] using ih (on_error st) ht
    | wsClose => simpa [wsStep, on_close] using ih (on_close st) ht
    | wsReopen => simpa [wsStep, on_open] using ih (on_open st) ht

/-- Witness for C8: a close followed by a reconnect leaves the series
store and the dedup map of a populated state unchanged. -/
theorem C8_reconnect_preserves_series_witness :
    (([WsEvent.wsClose, WsEvent.wsReopen].foldl wsStep st0).data = st0.data) ∧
    (([WsEvent.wsClose, WsEvent.wsReopen].foldl wsStep st0).sent_signals =
      st0.sent_signals) :=
  C8_reconnect_preserves_series st0 [WsEvent.wsClose, WsEvent.wsReopen] (by decide)

/-- Counterexample to C9: nothing in the pipeline validates `low ≤ high`,
so a window of inverted candles emits a LONG signal whose stop (support
11) lies above its target (resistance 0): support ≤ resistance fails on an
emitting window. -/
theorem C9_inverted_candles_counterexample :
    combine_price_action_factors wBad = .result (some ⟨.LONG, 5, 11, 0⟩) ∧
    resistanceOf wBad < supportOf wBad := by decide

/-- C9 (amended): on every window whose last 20 candles are well-formed
(candle-wise low ≤ high), an emitted signal satisfies
support ≤ resistance, every LONG signal has stop ≤ target < entry, and
every SHORT signal has entry < target ≤ stop. -/
theorem C9_signal_ordering (df : List Candle) (sig : Signal)
    (hlh : ∀ c ∈ tailn 20 df, c.low ≤ c.high)
    (h : combine_price_action_factors df = .result (some sig)) :
    supportOf df ≤ resistanceOf df ∧
    (sig.dir = .LONG → sig.sl ≤ sig.tp ∧ sig.tp < sig.entry) ∧
    (sig.dir = .SHORT → sig.entry < sig.tp ∧ sig.tp ≤ sig.sl) := by
  by_cases hlen : df.length < 10
  · exfalso
    unfold combine_price_action_factors detect_trendline at h
    simp [hlen] at h
  · have hne : df ≠ [] := by
      intro hnil
      subst hnil
      simp at hlen
    have hsr := support_le_resistance df hne hlh
    rw [combine_eq_of_len df hlen] at h
    injection h with h2
    split_ifs at h2 with h3 h4 h5
    · injection h2 with h6
      subst h6
      exact ⟨hsr, fun _ => ⟨hsr, h4⟩, fun hdir => by simp at hdir⟩
    · injection h2 with h6
      subst h6
      exact ⟨hsr, fun hdir => by simp at hdir, fun _ => ⟨h5, hsr⟩⟩

/-- Witness for the amended C9 at a well-formed breakout window emitting
LONG entry 132, stop 100, target 130. -/
theorem C9_signal_ordering_witness :
    supportOf wGood ≤ resistanceOf wGood ∧
    (sig132.dir = .LONG → sig132.sl ≤ sig132.tp ∧ sig132.tp < sig132.entry) ∧
    (sig132.dir = .SHORT → sig132.entry < sig132.tp ∧ sig132.tp ≤ sig132.sl) :=
  C9_signal_ordering wGood sig132 (by decide) (by decide)

/-- C10: `send_alert` writes `sent_signals[key] = now` before attempting
Telegram delivery, so the record reads `now` whatever the delivery outcome
was, and an identical signal recomputed within the rate-limit window is
suppressed even when the first delivery failed. -/
theorem C10_failed_delivery_consumes_slot (sent : SentMap) (now now2 : ℕ)
    (pair : String) (tf : ℕ) (sig : Signal) (d1 d2 : Bool)
    (hpass : gatePasses sent now (make_key pair tf sig))
    (hwin : now2 - now < 1500) :
    sentGet (send_alert sent now pair tf sig d1).1 (make_key pair tf sig) =
      some now ∧
    send_alert (send_alert sent now pair tf sig d1).1 now2 pair tf sig d2 =
      ((send_alert sent now pair tf sig d1).1, false) := by
  have hstep : (send_alert sent now pair tf sig d1).1 =
      (make_key pair tf sig, now) :: sent := by
    unfold send_alert
    cases hs : sentGet sent (make_key pair tf sig) with
    | none => rfl
    | some last =>
      have hn : ¬ ((now - last) % 86400 < 1500) :=
        Nat.not_lt.mpr (hpass last hs)
      simp [hn]
  have hget : sentGet (send_alert sent now pair tf sig d1).1
      (make_key pair tf sig) = some now := by
    rw [hstep]
    exact sentGet_cons_self sent (make_key pair tf sig) now
  refine ⟨hget, ?_⟩
  apply send_alert_suppressed _ _ _ _ now _ _ hget
  rw [Nat.mod_eq_of_lt (by omega)]
  exact hwin

/-- Witness for C10: a first emission with failed delivery at t = 0 still
records t = 0, and an identical signal at t = 600 s is suppressed. -/
theorem C10_failed_delivery_consumes_slot_witness :
    sentGet (send_alert [] 0 "frxXAUUSD" 5 sig132 false).1
      (make_key "frxXAUUSD" 5 sig132) = some 0 ∧
    send_alert (send_alert [] 0 "frxXAUUSD" 5 sig132 false).1 600
      "frxXAUUSD" 5 sig132 true =
      ((send_alert [] 0 "frxXAUUSD" 5 sig132 false).1, false) :=
  C10_failed_delivery_consumes_slot [] 0 600 "frxXAUUSD" 5 sig132 false true
    (fun last hlast => by simp [sentGet] at hlast) (by norm_num)

end DerivBot
